import Mathlib

/-!
Shallow embedding of the verachat backend aggregation and engagement core
(src/api/index.js).  Rows of the external relational store are modelled as
lists of typed records; each HTTP handler is a pure function from a store
state (plus request data and, where a handler observes store failures, a
schedule of which lookups fail) to a new store state and a response.

Supabase client conventions modelled here, as observed by the handlers:
a query that is awaited never throws, it yields a data/error pair; the
maybeSingle and single modifiers yield data exactly when the filtered
result has exactly one row (zero rows give null data for maybeSingle, and
more than one row gives null data plus an error for both); a count-exact
query yields the number of matching rows, and the feed handler coerces a
failed count to 0 via the likeCount-or-0 pattern; ordering by created_at
is modelled as insertion sort by created_at.
-/

namespace Verachat

/-- Row of the posts table. -/
structure Post where
  id : String
  user_id : String
  content : String
  image_url : Option String
  created_at : Nat
  deriving DecidableEq, Repr, Inhabited

/-- Row of the likes table. -/
structure Like where
  id : String
  post_id : String
  user_id : String
  deriving DecidableEq, Repr, Inhabited

/-- Row of the comments table. -/
structure Comment where
  id : String
  post_id : String
  user_id : String
  content : String
  created_at : Nat
  deriving DecidableEq, Repr, Inhabited

/-- Row of the profiles table (owned externally, read-only here). -/
structure Profile where
  id : String
  username : String
  avatar_url : Option String
  deriving DecidableEq, Repr, Inhabited

/-- State of the external relational store. -/
structure DB where
  posts : List Post
  likes : List Like
  comments : List Comment
  profiles : List Profile
  deriving DecidableEq, Repr, Inhabited

/-- Result field of a supabase single-row query (maybeSingle or single):
data is present exactly when the filtered result has exactly one row.
With zero rows maybeSingle yields null data and no error; with more than
one row both modifiers yield null data together with an error, and every
call site in the source reads only the data field. -/
def singleRowData {α : Type} (rows : List α) : Option α :=
  match rows with
  | [r] => some r
  | _ => none

/-- JavaScript string-or-default: the empty string is falsy, so it falls
through to the default, as in the author fallback to Unknown. -/
def jsOrElse (s : Option String) (d : String) : String :=
  match s with
  | some v => if v = "" then d else v
  | none => d

/-- JavaScript string-or-null: the empty string is falsy and becomes null,
as in the query-parameter extraction and the avatar fallback. -/
def jsStrOrNull (s : Option String) : Option String :=
  match s with
  | some v => if v = "" then none else some v
  | none => none

/-- JavaScript String.prototype.trim on the character list: strip leading
whitespace, then strip trailing whitespace. -/
def dropTrail (l : List Char) : List Char :=
  (l.reverse.dropWhile Char.isWhitespace).reverse

/-- Leading part of the JavaScript trim followed by the trailing part. -/
def jsTrimL (l : List Char) : List Char :=
  dropTrail (l.dropWhile Char.isWhitespace)

/-- JavaScript String.prototype.trim, modelled on Lean strings. -/
def jsTrim (s : String) : String :=
  ⟨jsTrimL s.data⟩

/-- Like rows whose post_id matches the given post id (the like-count
query of the feed handler). -/
def likesFor (db : DB) (postId : String) : List Like :=
  db.likes.filter (fun l => l.post_id == postId)

/-- Like rows matching both a post id and a user id (the maybeSingle
lookup of the feed handler and of the toggle handler). -/
def likesBy (db : DB) (postId userId : String) : List Like :=
  db.likes.filter (fun l => l.post_id == postId && l.user_id == userId)

/-- Comment rows whose post_id matches the given post id. -/
def commentsFor (db : DB) (postId : String) : List Comment :=
  db.comments.filter (fun c => c.post_id == postId)

/-- Profile row joined by user id (the foreign-key join of the feed and
comment queries). -/
def profileFor (db : DB) (userId : String) : Option Profile :=
  db.profiles.find? (fun p => p.id == userId)

/-- Denormalized feed entry assembled by the feed handler: the post row
spread together with author display fields, engagement counts and the
viewer-specific liked flag. -/
structure EnrichedPost where
  post : Post
  author : String
  avatar_url : Option String
  like_count : Nat
  comment_count : Nat
  liked_by_me : Bool
  deriving DecidableEq, Repr, Inhabited

/-- Comment joined with author display fields, as returned by the comment
list handler. -/
structure EnrichedComment where
  comment : Comment
  author : String
  avatar_url : Option String
  deriving DecidableEq, Repr, Inhabited

/-- Schedule of store failures observed by one feed read: whether the
initial posts query fails, and the ids of the posts whose like-count,
comment-count or viewer-like lookup fails. -/
structure FeedFailures where
  postsQuery : Bool
  likeCount : List String
  commentCount : List String
  myLike : List String
  deriving DecidableEq, Repr, Inhabited

/-- Feed read in which every store lookup succeeds. -/
def noFailures : FeedFailures :=
  { postsQuery := false, likeCount := [], commentCount := [], myLike := [] }

/-- Newest-first relation on posts used by the feed query. -/
def postDesc (a b : Post) : Prop :=
  b.created_at ≤ a.created_at

instance : DecidableRel postDesc :=
  fun a b => inferInstanceAs (Decidable (b.created_at ≤ a.created_at))

instance : IsTotal Post postDesc :=
  ⟨fun a b => Nat.le_total b.created_at a.created_at⟩

instance : IsTrans Post postDesc :=
  ⟨fun _ _ _ h1 h2 => Nat.le_trans h2 h1⟩

/-- Oldest-first relation on comments used by the comment list query. -/
def commentAsc (a b : Comment) : Prop :=
  a.created_at ≤ b.created_at

instance : DecidableRel commentAsc :=
  fun a b => inferInstanceAs (Decidable (a.created_at ≤ b.created_at))

instance : IsTotal Comment commentAsc :=
  ⟨fun a b => Nat.le_total a.created_at b.created_at⟩

instance : IsTrans Comment commentAsc :=
  ⟨fun _ _ _ h1 h2 => Nat.le_trans h1 h2⟩

/-- Strict newest-first relation on enriched posts, for ordering claims. -/
def enrichedDescStrict (a b : EnrichedPost) : Prop :=
  b.post.created_at < a.post.created_at

instance : DecidableRel enrichedDescStrict :=
  fun a b => inferInstanceAs (Decidable (b.post.created_at < a.post.created_at))

/-- Strict oldest-first relation on enriched comments. -/
def commentAscStrict (a b : EnrichedComment) : Prop :=
  a.comment.created_at < b.comment.created_at

instance : DecidableRel commentAscStrict :=
  fun a b => inferInstanceAs (Decidable (a.comment.created_at < b.comment.created_at))

/-- Posts as delivered by the store for the feed query, ordered by
created_at descending. -/
def feedPosts (db : DB) : List Post :=
  List.insertionSort postDesc db.posts

/-- Extraction of the optional viewer id from the query string: the feed
handler reads the user_id query parameter and coerces a falsy value to
null. -/
def viewerOf (query : List (String × String)) : Option String :=
  jsStrOrNull ((query.find? (fun kv => kv.1 == "user_id")).map Prod.snd)

/-- Per-post enrichment step of the feed handler: like count and comment
count are count-exact queries coerced to 0 on failure, the viewer flag is
a maybeSingle lookup whose data is coerced to false when absent or
failed, and author display fields fall back to Unknown and null. -/
def enrichPost (db : DB) (ff : FeedFailures) (viewer : Option String) (post : Post) :
    EnrichedPost :=
  let likeCount := if post.id ∈ ff.likeCount then 0 else (likesFor db post.id).length
  let commentCount :=
    if post.id ∈ ff.commentCount then 0 else (commentsFor db post.id).length
  let likedByMe :=
    match viewer with
    | none => false
    | some v =>
      if post.id ∈ ff.myLike then false
      else (singleRowData (likesBy db post.id v)).isSome
  let prof := profileFor db post.user_id
  { post := post
    author := jsOrElse (prof.map Profile.username) "Unknown"
    avatar_url := jsStrOrNull (prof.bind Profile.avatar_url)
    like_count := likeCount
    comment_count := commentCount
    liked_by_me := likedByMe }

/-- Feed handler (GET /api/posts): on a posts-query failure the catch
block answers 500 with a fixed message; otherwise the posts are ordered
newest first and each is enriched, and per-post lookup failures do not
reach the catch block because the awaited queries do not throw. -/
def getPosts (db : DB) (ff : FeedFailures) (query : List (String × String)) :
    Except String (List EnrichedPost) :=
  if ff.postsQuery then Except.error "Failed to fetch posts"
  else Except.ok ((feedPosts db).map (enrichPost db ff (viewerOf query)))

/-- Comment list handler (GET /api/posts/:id/comments): comments of the
post ordered by created_at ascending, joined with author display
fields. -/
def getComments (db : DB) (queryFails : Bool) (postId : String) :
    Except String (List EnrichedComment) :=
  if queryFails then Except.error "Failed to fetch comments"
  else
    Except.ok ((List.insertionSort commentAsc (commentsFor db postId)).map (fun c =>
      { comment := c
        author := jsOrElse ((profileFor db c.user_id).map Profile.username) "Unknown"
        avatar_url := jsStrOrNull ((profileFor db c.user_id).bind Profile.avatar_url) }))

/-- Text post creation handler (POST /api/posts): a missing or
whitespace-only content is rejected with 400 before any store write, then
the trimmed content is inserted with the acting principal as author. -/
def createPost (db : DB) (uid : String) (content : Option String) (newId : String)
    (now : Nat) (insertFails : Bool) : DB × Except (Nat × String) Post :=
  let c := content.getD ""
  if jsTrim c = "" then (db, Except.error (400, "Content is required"))
  else if insertFails then (db, Except.error (500, "Failed to create post"))
  else
    let post : Post :=
      { id := newId, user_id := uid, content := jsTrim c, image_url := none
        created_at := now }
    ({ db with posts := db.posts ++ [post] }, Except.ok post)

/-- Public URL resolved for an uploaded object, keyed per user and
disambiguated by time, as produced by the storage client. -/
def publicUrl (uid : String) (now : Nat) (name : String) : String :=
  "https://storage.example/post-images/" ++ uid ++ "/" ++ toString now ++ "_" ++ name

/-- Image post creation handler (POST /api/posts/upload): a missing file
is rejected with 400; content defaults to the empty string and is not
validated; a storage upload failure is thrown and caught as a 500 before
the insert; otherwise the post is inserted with the resolved public
URL. -/
def uploadPost (db : DB) (uid : String) (content : Option String) (file : Option String)
    (newId : String) (now : Nat) (uploadFails insertFails : Bool) :
    DB × Except (Nat × String) Post :=
  let c := content.getD ""
  match file with
  | none => (db, Except.error (400, "Image file is required"))
  | some name =>
    if uploadFails then (db, Except.error (500, "Failed to create post with image"))
    else if insertFails then (db, Except.error (500, "Failed to create post with image"))
    else
      let post : Post :=
        { id := newId, user_id := uid, content := jsTrim c
          image_url := some (publicUrl uid now name), created_at := now }
      ({ db with posts := db.posts ++ [post] }, Except.ok post)

/-- Post deletion handler (DELETE /api/posts/:id): a single delete
filtered by post id and acting owner; on store success the response is
success true whether or not any row matched. -/
def deletePost (db : DB) (uid postId : String) (deleteFails : Bool) :
    DB × Except (Nat × String) Bool :=
  if deleteFails then (db, Except.error (500, "Failed to delete post"))
  else
    ({ db with posts := db.posts.filter (fun p => !(p.id == postId && p.user_id == uid)) },
      Except.ok true)

/-- Partial update applied to a post row: content is replaced by the
trimmed body content when the body carries one, and the image URL is
cleared when remove_image is truthy. -/
def applyUpdates (content : Option String) (removeImage : Bool) (p : Post) : Post :=
  { p with
    content := match content with | some c => jsTrim c | none => p.content
    image_url := if removeImage then none else p.image_url }

/-- Post update handler (PUT /api/posts/:id): ownership and existence are
checked by one single-row lookup filtered by id and owner, whose absence
is answered with 404; the update itself is filtered by id only and the
updated row is re-read with single. -/
def updatePost (db : DB) (uid postId : String) (content : Option String)
    (removeImage : Bool) (updateFails : Bool) : DB × Except (Nat × String) Post :=
  match singleRowData (db.posts.filter (fun p => p.id == postId && p.user_id == uid)) with
  | none => (db, Except.error (404, "Post not found or unauthorized"))
  | some _ =>
    if updateFails then (db, Except.error (500, "Failed to update post"))
    else
      let newPosts :=
        db.posts.map (fun p => if p.id == postId then applyUpdates content removeImage p else p)
      match singleRowData (newPosts.filter (fun p => p.id == postId)) with
      | some updated => ({ db with posts := newPosts }, Except.ok updated)
      | none => ({ db with posts := newPosts }, Except.error (500, "Failed to update post"))

/-- Like toggle handler (POST /api/posts/:id/like): a maybeSingle lookup
for the pair; when it yields a row that row is deleted by its id and the
response is liked false, otherwise a new like row is inserted and the
response is liked true. -/
def toggleLike (db : DB) (uid postId : String) (newLikeId : String) : DB × Bool :=
  match singleRowData (likesBy db postId uid) with
  | some existing =>
    ({ db with likes := db.likes.filter (fun l => !(l.id == existing.id)) }, false)
  | none =>
    ({ db with likes := db.likes ++ [{ id := newLikeId, post_id := postId, user_id := uid }] },
      true)

/-- Example store for the toggle cycle witness: no like for the pair of
interest, one unrelated like row. -/
def exDB3 : DB :=
  { posts := [], likes := [Like.mk "x1" "p2" "u2"], comments := [], profiles := [] }

/-- Example store for the non-owner mutation claims: one post owned by a. -/
def exDB6 : DB :=
  { posts := [Post.mk "p1" "a" "hi" none 1], likes := [], comments := [], profiles := [] }

/-- Example store for the idempotent-delete witness: one post owned by a. -/
def exDB8 : DB :=
  { posts := [Post.mk "p1" "a" "hi" none 1], likes := [], comments := [], profiles := [] }

/-- Example store for the duplicate-like counterexample: two like rows for
the same pair, violating the uniqueness invariant. -/
def exDB10 : DB :=
  { posts := [], likes := [Like.mk "l1" "p1" "u1", Like.mk "l2" "p1" "u1"]
    comments := [], profiles := [] }

/-- Example store for the single-delete frame witness: one like for the
pair and one unrelated like. -/
def exDB10w : DB :=
  { posts := [], likes := [Like.mk "l1" "p1" "u1", Like.mk "l9" "p2" "u1"]
    comments := [], profiles := [] }

/-- Example empty store for the upload counterexample. -/
def exDB7 : DB :=
  { posts := [], likes := [], comments := [], profiles := [] }

/-- Example store with one valid post for the text-create witness. -/
def exDB7w : DB :=
  { posts := [Post.mk "p0" "a" "ok" none 0], likes := [], comments := [], profiles := [] }

/-- Example store for the feed-count witness: one post, two likes and one
comment on it. -/
def exDB1 : DB :=
  { posts := [Post.mk "p1" "a" "hi" none 1]
    likes := [Like.mk "l1" "p1" "b", Like.mk "l2" "p1" "c"]
    comments := [Comment.mk "c1" "p1" "b" "nice" 4]
    profiles := [Profile.mk "a" "alice" (some "av")] }

/-- Feed result over exDB1 with no viewer and no failures. -/
def exES1 : List EnrichedPost :=
  (getPosts exDB1 noFailures []).toOption.getD []

/-- First enriched post of the exDB1 feed. -/
def exE1 : EnrichedPost :=
  exES1.headD default

/-- Example store for the feed-count counterexample: one post with one
like. -/
def exDB1c : DB :=
  { posts := [Post.mk "p1" "a" "hi" none 1]
    likes := [Like.mk "l1" "p1" "b"]
    comments := [], profiles := [] }

/-- Failure schedule for the feed-count counterexample: the like-count
lookup of p1 fails. -/
def exFF1c : FeedFailures :=
  { postsQuery := false, likeCount := ["p1"], commentCount := [], myLike := [] }

/-- Example store for the viewer-flag claim: one post and one like by b. -/
def exDB2 : DB :=
  { posts := [Post.mk "p1" "a" "hi" none 1]
    likes := [Like.mk "l1" "p1" "b"]
    comments := [], profiles := [] }

/-- Feed over exDB2 with the viewer supplied through the user_id query
parameter. -/
def exES2 : List EnrichedPost :=
  (getPosts exDB2 noFailures [("user_id", "b")]).toOption.getD []

/-- First enriched post of the exES2 feed. -/
def exE2 : EnrichedPost :=
  exES2.headD default

/-- Feed over exDB2 with no viewer supplied. -/
def exES2n : List EnrichedPost :=
  (getPosts exDB2 noFailures []).toOption.getD []

/-- First enriched post of the exES2n feed. -/
def exE2n : EnrichedPost :=
  exES2n.headD default

/-- Example store for the aggregation-failure claim: one post with one
like. -/
def exDB4 : DB :=
  { posts := [Post.mk "p1" "a" "hi" none 1]
    likes := [Like.mk "l1" "p1" "b"]
    comments := [], profiles := [] }

/-- Failure schedule in which only the like-count lookup of p1 fails. -/
def exFF4 : FeedFailures :=
  { postsQuery := false, likeCount := ["p1"], commentCount := [], myLike := [] }

/-- Failure schedule in which the initial posts query fails. -/
def exFF4p : FeedFailures :=
  { postsQuery := true, likeCount := [], commentCount := [], myLike := [] }

/-- Failure schedule in which all three per-post lookups of p1 fail. -/
def exFF4a : FeedFailures :=
  { postsQuery := false, likeCount := ["p1"], commentCount := ["p1"], myLike := ["p1"] }

/-- The post row of exDB4. -/
def exP4 : Post :=
  Post.mk "p1" "a" "hi" none 1

/-- Example store for the ordering claim: three posts with distinct
timestamps and two comments on p1 with distinct timestamps. -/
def exDB5 : DB :=
  { posts := [Post.mk "p1" "a" "hi" none 1, Post.mk "p2" "b" "yo" none 5,
      Post.mk "p3" "a" "ho" none 3]
    likes := []
    comments := [Comment.mk "c1" "p1" "b" "x" 4, Comment.mk "c2" "p1" "a" "y" 2]
    profiles := [] }

/-- Feed result over exDB5. -/
def exES5 : List EnrichedPost :=
  (getPosts exDB5 noFailures []).toOption.getD []

/-- Comment list of p1 over exDB5. -/
def exCS5 : List EnrichedComment :=
  (getComments exDB5 false "p1").toOption.getD []

/-! Helper lemmas about the store-access primitives. -/

theorem singleRowData_isSome {α : Type} (l : List α) :
    (singleRowData l).isSome = true ↔ l.length = 1 := by
  match l with
  | [] => simp [singleRowData]
  | [r] => simp [singleRowData]
  | a :: b :: t => simp [singleRowData]

theorem toggleLike_insert (db : DB) (u p nid : String) (h : likesBy db p u = []) :
    toggleLike db u p nid = ({ db with likes := db.likes ++ [Like.mk nid p u] }, true) := by
  unfold toggleLike
  rw [h]
  rfl

theorem toggleLike_delete (db : DB) (u p nid : String) (r : Like)
    (h : likesBy db p u = [r]) :
    toggleLike db u p nid
      = ({ db with likes := db.likes.filter (fun l => !(l.id == r.id)) }, false) := by
  unfold toggleLike
  rw [h]
  rfl

theorem posts_filter_nonowner (posts : List Post) (postId uid : String)
    (h : ∀ q ∈ posts, q.id = postId → q.user_id ≠ uid) :
    posts.filter (fun q => !(q.id == postId && q.user_id == uid)) = posts := by
  refine List.filter_eq_self.mpr (fun q hq => ?_)
  cases hid : (q.id == postId) with
  | false => simp [hid]
  | true =>
    have : q.user_id ≠ uid := h q hq (by simpa [beq_iff_eq] using hid)
    simp [hid, this]

/-! Claim C3: starting with no Like row for a pair, three sequential
toggle calls report liked true, false, true, inserting the row when it is
absent and deleting it when it is present. -/

/-- C3: from a state with no Like row for the pair, three sequential
toggle calls return liked true, then false, then true; the first and
third insert the row for the pair and the second deletes it (the inserted
id being fresh in the store). -/
theorem toggle_like_three_cycle (db : DB) (u p i1 i2 i3 : String)
    (h0 : likesBy db p u = [])
    (hfresh : ∀ l ∈ db.likes, l.id ≠ i1) :
    (toggleLike db u p i1).2 = true ∧
    (toggleLike db u p i1).1.likes = db.likes ++ [Like.mk i1 p u] ∧
    (toggleLike (toggleLike db u p i1).1 u p i2).2 = false ∧
    (toggleLike (toggleLike db u p i1).1 u p i2).1.likes = db.likes ∧
    (toggleLike (toggleLike (toggleLike db u p i1).1 u p i2).1 u p i3).2 = true ∧
    (toggleLike (toggleLike (toggleLike db u p i1).1 u p i2).1 u p i3).1.likes
      = db.likes ++ [Like.mk i3 p u] := by
  have s1 := toggleLike_insert db u p i1 h0
  rw [s1]
  have h1 : likesBy { db with likes := db.likes ++ [Like.mk i1 p u] } p u
      = [Like.mk i1 p u] := by
    show (db.likes ++ [Like.mk i1 p u]).filter (fun l => l.post_id == p && l.user_id == u)
      = [Like.mk i1 p u]
    rw [List.filter_append]
    have h0' : db.likes.filter (fun l => l.post_id == p && l.user_id == u) = [] := h0
    rw [h0']
    simp
  have s2 := toggleLike_delete { db with likes := db.likes ++ [Like.mk i1 p u] } u p i2
    (Like.mk i1 p u) h1
  rw [s2]
  have hkeep : db.likes.filter (fun l => !(l.id == i1)) = db.likes := by
    refine List.filter_eq_self.mpr (fun l hl => ?_)
    simp [hfresh l hl]
  have h2 : ({ db with likes := db.likes ++ [Like.mk i1 p u] } : DB).likes.filter
      (fun l => !(l.id == (Like.mk i1 p u).id)) = db.likes := by
    show (db.likes ++ [Like.mk i1 p u]).filter (fun l => !(l.id == i1)) = db.likes
    rw [List.filter_append, hkeep]
    simp
  rw [h2]
  have h3 : likesBy { db with likes := db.likes } p u = [] := h0
  have s3 := toggleLike_insert { db with likes := db.likes } u p i3 h3
  rw [s3]
  exact ⟨rfl, rfl, rfl, rfl, rfl, rfl⟩

/-- C3 witness: the cycle evaluated in a concrete store holding one
unrelated like row. -/
theorem toggle_like_three_cycle_witness :
    (toggleLike exDB3 "u" "p" "l1").2 = true ∧
    (toggleLike exDB3 "u" "p" "l1").1.likes = exDB3.likes ++ [Like.mk "l1" "p" "u"] ∧
    (toggleLike (toggleLike exDB3 "u" "p" "l1").1 "u" "p" "l2").2 = false ∧
    (toggleLike (toggleLike exDB3 "u" "p" "l1").1 "u" "p" "l2").1.likes = exDB3.likes ∧
    (toggleLike (toggleLike (toggleLike exDB3 "u" "p" "l1").1 "u" "p" "l2").1 "u" "p" "l3").2
      = true ∧
    (toggleLike (toggleLike (toggleLike exDB3 "u" "p" "l1").1 "u" "p" "l2").1 "u" "p" "l3").1.likes
      = exDB3.likes ++ [Like.mk "l3" "p" "u"] :=
  toggle_like_three_cycle exDB3 "u" "p" "l1" "l2" "l3" (by decide) (by decide)

/-! Claim C6: update or delete by a non-owner. The update path answers
404 and changes nothing; the delete path, contrary to the claim, answers
success true. -/

/-- C6 counterexample: deleting the post of author a while acting as b
returns the success-shaped 200 response with the store unchanged, not a
not-found-class error as the claim states. -/
theorem delete_nonowner_success_counterexample :
    deletePost exDB6 "b" "p1" false = (exDB6, Except.ok true) ∧
    exDB6.posts.map Post.user_id = ["a"] :=
  ⟨rfl, rfl⟩

/-- C6 amended: update of a post by an authenticated principal who is not
its author yields 404 with the store unchanged (never success, never a
distinct forbidden response); delete by a non-owner leaves the store
unchanged but yields the generic success response instead of an error. -/
theorem nonowner_update_delete (db : DB) (uid postId : String) (content : Option String)
    (removeImage updateFails : Bool)
    (hown : ∀ q ∈ db.posts, q.id = postId → q.user_id ≠ uid) :
    updatePost db uid postId content removeImage updateFails
      = (db, Except.error (404, "Post not found or unauthorized")) ∧
    deletePost db uid postId false = (db, Except.ok true) := by
  have hfil : db.posts.filter (fun q => q.id == postId && q.user_id == uid) = [] := by
    rw [List.filter_eq_nil_iff]
    intro q hq
    simp only [Bool.and_eq_true, beq_iff_eq, not_and]
    exact hown q hq
  constructor
  · unfold updatePost
    rw [hfil]
    rfl
  · unfold deletePost
    rw [posts_filter_nonowner db.posts postId uid hown]
    rfl

/-- C6 witness: the amended statement evaluated with author a and acting
principal b. -/
theorem nonowner_update_delete_witness :
    updatePost exDB6 "b" "p1" (some "new") false false
      = (exDB6, Except.error (404, "Post not found or unauthorized")) ∧
    deletePost exDB6 "b" "p1" false = (exDB6, Except.ok true) :=
  nonowner_update_delete exDB6 "b" "p1" (some "new") false false (by decide)

/-! Claim C8: the delete handler reports success whenever the store
delete succeeds, whether or not any row was removed. -/

/-- C8: on store success the delete response is success true regardless
of whether any row matched, and when no row matches the acting owner and
id the store is unchanged. -/
theorem delete_idempotent_success (db : DB) (uid postId : String) :
    (deletePost db uid postId false).2 = Except.ok true ∧
    ((∀ q ∈ db.posts, q.id = postId → q.user_id ≠ uid) →
      deletePost db uid postId false = (db, Except.ok true)) := by
  constructor
  · rfl
  · intro h
    unfold deletePost
    rw [posts_filter_nonowner db.posts postId uid h]
    rfl

/-- C8 witness: deleting a post id not owned by the caller answers
success true and removes nothing. -/
theorem delete_idempotent_success_witness :
    (deletePost exDB8 "b" "p1" false).2 = Except.ok true ∧
    deletePost exDB8 "b" "p1" false = (exDB8, Except.ok true) :=
  ⟨(delete_idempotent_success exDB8 "b" "p1").1,
    (delete_idempotent_success exDB8 "b" "p1").2 (by decide)⟩

/-! Claim C9: a storage upload failure aborts the image-post creation
before any post row is inserted. -/

/-- C9: when the storage upload step fails, the upload handler answers
the 500 upload error and the store is returned unchanged, so no post row
is inserted. -/
theorem upload_failure_no_insert (db : DB) (uid : String) (content : Option String)
    (name newId : String) (now : Nat) (insertFails : Bool) :
    uploadPost db uid content (some name) newId now true insertFails
      = (db, Except.error (500, "Failed to create post with image")) := rfl

/-! Claim C10: effect of one toggle call on existing Like rows. -/

/-- C10 counterexample: with two duplicate Like rows for the pair, the
maybeSingle lookup yields no row, so the call inserts a third row and
reports liked true instead of deleting the looked-up row and reporting
liked false. -/
theorem toggle_duplicate_likes_counterexample :
    (toggleLike exDB10 "u1" "p1" "l3").2 = true ∧
    (toggleLike exDB10 "u1" "p1" "l3").1.likes
      = exDB10.likes ++ [Like.mk "l3" "p1" "u1"] :=
  ⟨rfl, rfl⟩

theorem filter_ne_id_length (L : List Like) (r : Like) (hr : r ∈ L)
    (hids : L.Pairwise (fun a b => a.id ≠ b.id)) :
    (L.filter (fun l => !(l.id == r.id))).length + 1 = L.length := by
  induction L with
  | nil => cases hr
  | cons a t ih =>
    rw [List.pairwise_cons] at hids
    cases hr with
    | head =>
      have ht : t.filter (fun l => !(l.id == r.id)) = t := by
        refine List.filter_eq_self.mpr (fun l hl => ?_)
        have hne : r.id ≠ l.id := hids.1 l hl
        simp [Ne.symm hne]
      simp [List.filter_cons, ht]
    | tail _ hrt =>
      have ha : a.id ≠ r.id := hids.1 r hrt
      have := ih hrt hids.2
      simp only [List.filter_cons, ha, ne_eq]
      rw [if_pos (by simp [ha])]
      simp only [List.length_cons]
      omega

/-- C10 amended: when exactly one Like row exists for the pair and like
ids are unique, the toggle call reports liked false and the resulting
likes table is the old one with exactly that row removed (one fewer row,
all rows with other ids kept by the id-filtered delete); with two or more
duplicate rows the lookup yields no row and the call inserts instead, as
the counterexample shows. -/
theorem toggle_single_delete_frame (db : DB) (u p nid : String) (r : Like)
    (hone : likesBy db p u = [r])
    (hids : db.likes.Pairwise (fun a b => a.id ≠ b.id)) :
    (toggleLike db u p nid).2 = false ∧
    (toggleLike db u p nid).1.likes = db.likes.filter (fun l => !(l.id == r.id)) ∧
    (toggleLike db u p nid).1.likes.length + 1 = db.likes.length := by
  have s := toggleLike_delete db u p nid r hone
  rw [s]
  have hr : r ∈ db.likes := by
    have : r ∈ likesBy db p u := by rw [hone]; exact List.mem_singleton.mpr rfl
    exact List.mem_of_mem_filter this
  exact ⟨rfl, rfl, filter_ne_id_length db.likes r hr hids⟩

/-- C10 amended witness: the single-delete frame evaluated in a concrete
store with one like for the pair and one unrelated like. -/
theorem toggle_single_delete_frame_witness :
    (toggleLike exDB10w "u1" "p1" "l3").2 = false ∧
    (toggleLike exDB10w "u1" "p1" "l3").1.likes
      = exDB10w.likes.filter (fun l => !(l.id == (Like.mk "l1" "p1" "u1").id)) ∧
    (toggleLike exDB10w "u1" "p1" "l3").1.likes.length + 1 = exDB10w.likes.length :=
  toggle_single_delete_frame exDB10w "u1" "p1" "l3" (Like.mk "l1" "p1" "u1")
    (by decide) (by decide)

/-! Helper lemmas about the feed handler. -/

theorem getPosts_ok (db : DB) (ff : FeedFailures) (q : List (String × String))
    (h : ff.postsQuery = false) :
    getPosts db ff q
      = Except.ok ((feedPosts db).map (enrichPost db ff (viewerOf q))) := by
  unfold getPosts
  rw [h]
  rfl

theorem enrichPost_post (db : DB) (ff : FeedFailures) (v : Option String) (post : Post) :
    (enrichPost db ff v post).post = post := rfl

theorem enrichPost_like_count (db : DB) (ff : FeedFailures) (v : Option String)
    (post : Post) :
    (enrichPost db ff v post).like_count
      = if post.id ∈ ff.likeCount then 0 else (likesFor db post.id).length := rfl

theorem enrichPost_comment_count (db : DB) (ff : FeedFailures) (v : Option String)
    (post : Post) :
    (enrichPost db ff v post).comment_count
      = if post.id ∈ ff.commentCount then 0 else (commentsFor db post.id).length := rfl

theorem enrichPost_liked_none (db : DB) (ff : FeedFailures) (post : Post) :
    (enrichPost db ff none post).liked_by_me = false := rfl

theorem enrichPost_liked_some (db : DB) (ff : FeedFailures) (post : Post) (v : String) :
    (enrichPost db ff (some v) post).liked_by_me
      = if post.id ∈ ff.myLike then false
        else (singleRowData (likesBy db post.id v)).isSome := rfl

/-! Claim C1: feed counts. Over all feed reads the claim is false: a
read in which a per-post count lookup fails still returns 200, with the
affected count silently degraded to 0 while matching rows exist. The
counts do equal the matching row counts on every read whose per-post
lookups succeed. -/

/-- C1 counterexample: a feed read in which the like-count lookup of p1
fails returns the enriched sequence with like_count 0 although one Like
row with that post id exists, so not every feed read carries the true
count. -/
theorem feed_counts_failing_lookup_counterexample :
    (getPosts exDB1c exFF1c []).map (fun es => es.map EnrichedPost.like_count)
      = Except.ok [0] ∧
    (likesFor exDB1c "p1").length = 1 :=
  ⟨rfl, rfl⟩

/-- C1 amended: every post of a feed read whose per-post store lookups
all succeed carries like_count equal to the number of Like rows with its
post id, and comment_count equal to the number of Comment rows with its
post id. -/
theorem feed_counts_match_store (db : DB) (q : List (String × String))
    (es : List EnrichedPost) (h : getPosts db noFailures q = Except.ok es)
    (e : EnrichedPost) (he : e ∈ es) :
    e.like_count = (likesFor db e.post.id).length ∧
    e.comment_count = (commentsFor db e.post.id).length := by
  rw [getPosts_ok db noFailures q rfl] at h
  injection h with h'
  subst h'
  obtain ⟨pp, hpp, rfl⟩ := List.mem_map.mp he
  rw [enrichPost_post, enrichPost_like_count, enrichPost_comment_count]
  constructor
  · rw [if_neg (by simp [noFailures])]
  · rw [if_neg (by simp [noFailures])]

/-- C1 witness: the counts evaluated on a store with one post, two likes
and one comment. -/
theorem feed_counts_match_store_witness :
    exE1.like_count = (likesFor exDB1 exE1.post.id).length ∧
    exE1.comment_count = (commentsFor exDB1 exE1.post.id).length :=
  feed_counts_match_store exDB1 [] exES1 (by rfl) exE1 (by decide)

/-! Claim C2: the viewer flag. The viewer id is read from the user_id
query parameter, not from viewer_id as the claim states, and the
single-row lookup yields a row only when exactly one Like row matches. -/

/-- C2 counterexample: with a Like row for (p1, b) present, a feed read
supplying the viewer through the viewer_id query parameter still reports
liked_by_me false, because the handler reads the user_id parameter. -/
theorem feed_viewer_param_counterexample :
    (getPosts exDB2 noFailures [("viewer_id", "b")]).map
        (fun es => es.map EnrichedPost.liked_by_me) = Except.ok [false] ∧
    (likesBy exDB2 "p1" "b").length = 1 :=
  ⟨rfl, rfl⟩

/-- C2 amended: in a feed read whose lookups succeed, when a viewer id v
is supplied via the user_id query parameter, liked_by_me is true iff
exactly one Like row exists for (post_id, v); when no viewer id is
supplied, liked_by_me is false. -/
theorem feed_liked_by_me_semantics (db : DB) (q : List (String × String))
    (es : List EnrichedPost) (h : getPosts db noFailures q = Except.ok es)
    (e : EnrichedPost) (he : e ∈ es) (v : String) :
    (viewerOf q = some v →
      (e.liked_by_me = true ↔ (likesBy db e.post.id v).length = 1)) ∧
    (viewerOf q = none → e.liked_by_me = false) := by
  rw [getPosts_ok db noFailures q rfl] at h
  injection h with h'
  subst h'
  obtain ⟨pp, hpp, rfl⟩ := List.mem_map.mp he
  rw [enrichPost_post]
  constructor
  · intro hv
    rw [hv, enrichPost_liked_some, if_neg (by simp [noFailures])]
    exact singleRowData_isSome _
  · intro hv
    rw [hv, enrichPost_liked_none]

/-- C2 amended witness: the flag evaluated with the viewer supplied via
user_id, and with no viewer supplied. -/
theorem feed_liked_by_me_semantics_witness :
    (exE2.liked_by_me = true ↔ (likesBy exDB2 exE2.post.id "b").length = 1) ∧
    exE2n.liked_by_me = false :=
  ⟨(feed_liked_by_me_semantics exDB2 [("user_id", "b")] exES2 (by rfl) exE2
      (by decide) "b").1 (by rfl),
    (feed_liked_by_me_semantics exDB2 [] exES2n (by rfl) exE2n
      (by decide) "b").2 (by rfl)⟩

/-! Claim C4: failure of a per-post lookup. Only a failure of the
initial posts query fails the call; per-post lookup failures are
silently degraded to 0 and false. -/

/-- C4 counterexample: with the like-count lookup of p1 failing, the feed
call still succeeds and reports like_count 0, although one Like row for
p1 exists — a degraded result the claim says is never returned. -/
theorem feed_lookup_failure_counterexample :
    (getPosts exDB4 exFF4 []).map (fun es => es.map EnrichedPost.like_count)
      = Except.ok [0] ∧
    (likesFor exDB4 "p1").length = 1 :=
  ⟨rfl, rfl⟩

/-- C4 amended: a failure of the initial posts query fails the whole feed
call with the 500 message; failures of per-post lookups do not fail the
call — the feed still returns the enriched sequence, with a failed like
count degraded to 0, a failed comment count degraded to 0, and a failed
viewer-like lookup degraded to liked_by_me false. -/
theorem feed_failure_degrades (db : DB) (ff : FeedFailures)
    (q : List (String × String)) (p : Post) :
    (ff.postsQuery = true → getPosts db ff q = Except.error "Failed to fetch posts") ∧
    (ff.postsQuery = false →
      getPosts db ff q
        = Except.ok ((feedPosts db).map (enrichPost db ff (viewerOf q)))) ∧
    (p.id ∈ ff.likeCount → (enrichPost db ff (viewerOf q) p).like_count = 0) ∧
    (p.id ∈ ff.commentCount → (enrichPost db ff (viewerOf q) p).comment_count = 0) ∧
    (p.id ∈ ff.myLike → (enrichPost db ff (viewerOf q) p).liked_by_me = false) := by
  refine ⟨?_, ?_, ?_, ?_, ?_⟩
  · intro h
    unfold getPosts
    rw [h]
    rfl
  · intro h
    exact getPosts_ok db ff q h
  · intro h
    rw [enrichPost_like_count, if_pos h]
  · intro h
    rw [enrichPost_comment_count, if_pos h]
  · intro h
    cases hv : viewerOf q with
    | none => rw [enrichPost_liked_none]
    | some v => rw [enrichPost_liked_some, if_pos h]

/-- C4 amended witness: the failure semantics evaluated on a store with
one liked post, for a schedule failing the posts query and for one
failing all three per-post lookups of p1. -/
theorem feed_failure_degrades_witness :
    getPosts exDB4 exFF4p [] = Except.error "Failed to fetch posts" ∧
    getPosts exDB4 exFF4a []
      = Except.ok ((feedPosts exDB4).map (enrichPost exDB4 exFF4a (viewerOf []))) ∧
    (enrichPost exDB4 exFF4a (viewerOf []) exP4).like_count = 0 ∧
    (enrichPost exDB4 exFF4a (viewerOf []) exP4).comment_count = 0 ∧
    (enrichPost exDB4 exFF4a (viewerOf []) exP4).liked_by_me = false ∧
    (likesFor exDB4 exP4.id).length = 1 :=
  ⟨(feed_failure_degrades exDB4 exFF4p [] exP4).1 rfl,
    (feed_failure_degrades exDB4 exFF4a [] exP4).2.1 rfl,
    (feed_failure_degrades exDB4 exFF4a [] exP4).2.2.1 (by decide),
    (feed_failure_degrades exDB4 exFF4a [] exP4).2.2.2.1 (by decide),
    (feed_failure_degrades exDB4 exFF4a [] exP4).2.2.2.2 (by decide),
    rfl⟩

/-! Claim C5: ordering of the feed and of the comment list. -/

theorem getComments_ok (db : DB) (postId : String) :
    getComments db false postId
      = Except.ok ((List.insertionSort commentAsc (commentsFor db postId)).map (fun c =>
          { comment := c
            author := jsOrElse ((profileFor db c.user_id).map Profile.username) "Unknown"
            avatar_url := jsStrOrNull ((profileFor db c.user_id).bind Profile.avatar_url) }))
      := rfl

/-- C5: a successful feed read returns the enrichment of the posts in
newest-first order and preserves that order (the underlying posts of the
result are exactly the sorted posts), and with pairwise-distinct creation
timestamps the order is strictly descending; the comment list of a post
is returned strictly ascending by creation timestamp under the same
distinctness. -/
theorem feed_and_comments_ordering (db : DB) (q : List (String × String))
    (postId : String) (es : List EnrichedPost) (cs : List EnrichedComment)
    (hp : (db.posts.map Post.created_at).Nodup)
    (hc : ((commentsFor db postId).map Comment.created_at).Nodup)
    (hes : getPosts db noFailures q = Except.ok es)
    (hcs : getComments db false postId = Except.ok cs) :
    es.map EnrichedPost.post = feedPosts db ∧
    List.Sorted enrichedDescStrict es ∧
    List.Sorted commentAscStrict cs := by
  rw [getPosts_ok db noFailures q rfl] at hes
  injection hes with hes'
  subst hes'
  rw [getComments_ok db postId] at hcs
  injection hcs with hcs'
  subst hcs'
  refine ⟨?_, ?_, ?_⟩
  · rw [List.map_map]
    exact List.map_id'' (fun x => rfl) _
  · have hsor : List.Sorted postDesc (feedPosts db) :=
      List.sorted_insertionSort postDesc db.posts
    have hperm : List.Perm (feedPosts db) db.posts :=
      List.perm_insertionSort postDesc db.posts
    have hp0 : (db.posts.map Post.created_at).Pairwise (fun a b => a ≠ b) := hp
    have hp1 : db.posts.Pairwise (fun a b => a.created_at ≠ b.created_at) :=
      List.pairwise_map.mp hp0
    have hpf : (feedPosts db).Pairwise (fun a b => a.created_at ≠ b.created_at) :=
      (List.Perm.pairwise_iff (fun h => h.symm) hperm).mpr hp1
    have hstrict : (feedPosts db).Pairwise (fun a b => b.created_at < a.created_at) :=
      List.Pairwise.imp₂ (fun a b h1 h2 => lt_of_le_of_ne h1 (Ne.symm h2)) hsor hpf
    exact List.pairwise_map.mpr hstrict
  · have hsor : List.Sorted commentAsc (List.insertionSort commentAsc (commentsFor db postId)) :=
      List.sorted_insertionSort commentAsc (commentsFor db postId)
    have hperm : List.Perm (List.insertionSort commentAsc (commentsFor db postId))
        (commentsFor db postId) :=
      List.perm_insertionSort commentAsc (commentsFor db postId)
    have hc0 : ((commentsFor db postId).map Comment.created_at).Pairwise (fun a b => a ≠ b) := hc
    have hc1 : (commentsFor db postId).Pairwise (fun a b => a.created_at ≠ b.created_at) :=
      List.pairwise_map.mp hc0
    have hcf : (List.insertionSort commentAsc (commentsFor db postId)).Pairwise
        (fun a b => a.created_at ≠ b.created_at) :=
      (List.Perm.pairwise_iff (fun h => h.symm) hperm).mpr hc1
    have hstrict : (List.insertionSort commentAsc (commentsFor db postId)).Pairwise
        (fun a b => a.created_at < b.created_at) :=
      List.Pairwise.imp₂ (fun a b h1 h2 => lt_of_le_of_ne h1 h2) hsor hcf
    exact List.pairwise_map.mpr hstrict

/-- C5 witness: ordering evaluated on a store with three posts of
distinct timestamps and two comments of distinct timestamps. -/
theorem feed_and_comments_ordering_witness :
    exES5.map EnrichedPost.post = feedPosts exDB5 ∧
    List.Sorted enrichedDescStrict exES5 ∧
    List.Sorted commentAscStrict exCS5 :=
  feed_and_comments_ordering exDB5 [] "p1" exES5 exCS5 (by decide) (by decide)
    (by rfl) (by rfl)

/-! Claim C7: content is non-empty after trimming. The text-create path
enforces this; the upload path does not. -/

/-- C7 counterexample: an image post created with no content field
persists a post row whose content is the empty string, which is empty
after trimming. -/
theorem upload_empty_content_counterexample :
    (uploadPost exDB7 "a" none (some "img.png") "p9" 7 false false).1.posts.map Post.content
      = [""] ∧
    jsTrim "" = "" :=
  ⟨rfl, rfl⟩

theorem dropWhile_head_false {p : Char → Bool} {l : List Char} {a : Char}
    {t : List Char} (h : l.dropWhile p = a :: t) : p a = false := by
  have hh := List.head?_dropWhile_not p l
  rw [h] at hh
  exact hh

theorem leading_dropWhile_eq_self {p : Char → Bool} :
    ∀ (x t l : List Char), x ++ t = l.dropWhile p → x.dropWhile p = x
  | [], _, _, _ => rfl
  | a :: x', t, l, h => by
    have h' : l.dropWhile p = a :: (x' ++ t) := by rw [← h]; rfl
    have ha : p a = false := dropWhile_head_false h'
    rw [List.dropWhile_cons_of_neg (by simp [ha])]

theorem dropTrail_append (x : List Char) : ∃ s, dropTrail x ++ s = x := by
  obtain ⟨s, hs⟩ := List.dropWhile_suffix (l := x.reverse) Char.isWhitespace
  refine ⟨s.reverse, ?_⟩
  have hx := congrArg List.reverse hs
  rw [List.reverse_append, List.reverse_reverse] at hx
  exact hx

theorem dropTrail_idem (x : List Char) : dropTrail (dropTrail x) = dropTrail x := by
  unfold dropTrail
  rw [List.reverse_reverse, List.dropWhile_idempotent]

theorem jsTrimL_idem (l : List Char) : jsTrimL (jsTrimL l) = jsTrimL l := by
  unfold jsTrimL
  obtain ⟨s, hs⟩ := dropTrail_append (l.dropWhile Char.isWhitespace)
  have h1 : (dropTrail (l.dropWhile Char.isWhitespace)).dropWhile Char.isWhitespace
      = dropTrail (l.dropWhile Char.isWhitespace) :=
    leading_dropWhile_eq_self _ s l hs
  rw [h1, dropTrail_idem]

theorem jsTrim_idem (s : String) : jsTrim (jsTrim s) = jsTrim s :=
  congrArg String.mk (jsTrimL_idem s.data)

/-- C7 amended: the text-create path preserves the invariant that every
persisted post has content non-empty after trimming (it stores the
trimmed submission, rejected when empty); the upload path does not
enforce it, persisting empty content when none is submitted, as the
counterexample shows. -/
theorem create_text_post_content_invariant (db : DB) (uid : String)
    (content : Option String) (newId : String) (now : Nat) (insertFails : Bool)
    (hinv : ∀ q ∈ db.posts, jsTrim q.content ≠ "")
    (pp : Post) (hp : pp ∈ (createPost db uid content newId now insertFails).1.posts) :
    jsTrim pp.content ≠ "" := by
  simp only [createPost] at hp
  split at hp
  · exact hinv pp hp
  · split at hp
    · exact hinv pp hp
    · next h1 _ =>
      rcases List.mem_append.mp hp with hl | hr
      · exact hinv pp hl
      · rw [List.mem_singleton.mp hr]
        show jsTrim (jsTrim (content.getD "")) ≠ ""
        rw [jsTrim_idem]
        exact h1

/-- C7 amended witness: the invariant evaluated after creating a text
post with whitespace-padded content over a store already satisfying
it. -/
theorem create_text_post_content_invariant_witness :
    jsTrim (Post.mk "p9" "a" "hi" none 7).content ≠ "" :=
  create_text_post_content_invariant exDB7w "a" (some " hi ") "p9" 7 false
    (by decide) (Post.mk "p9" "a" "hi" none 7) (by decide)

end Verachat
